import Mathlib

/-! Shallow embedding of the EquiBind-XAI multi-ligand inference pipeline
(src/multiligand_inference.py): the batch runner run_batch with its
confidence-score computation and per-item fallback, the pose-correction
routine run_corrections, the result writer write_while_inferring, and the
resumable-run skip set built in main.  Tensor scalars are modelled by exact
real numbers; Python exceptions are modelled by Except values. -/

namespace EquiBindXAI

noncomputable section

/-- A 3-D coordinate vector with real entries, modelling one row of a
torch tensor of shape (n, 3). -/
abbrev Vec3 : Type := Fin 3 → ℝ

/-- A 3 x 3 matrix with real entries, modelling a rotation tensor. -/
abbrev Mat3 : Type := Fin 3 → Fin 3 → ℝ

/-- Euclidean norm of the difference of two rows: torch.norm(a - b) for a
single row of a (n, 3) tensor. -/
def rowDist (a b : Vec3) : ℝ :=
  Real.sqrt (∑ i, (a i - b i) ^ 2)

/-- Mean of the rowwise Euclidean distances,
torch.mean(torch.norm(x - y, dim=1)), for two (n, 3) tensors with the same
number of rows.  The claims only exercise equally shaped nonempty inputs. -/
def meanRowDist (xs ys : List Vec3) : ℝ :=
  (((xs.zip ys).map fun p => rowDist p.1 p.2).sum) / ((xs.zip ys).length : ℝ)

/-- One row of (rotation @ lig_kpt.t()).t() + translation: the rotation
applied to a single keypoint, plus the broadcast translation row. -/
def rigidRow (R : Mat3) (t : Vec3) (k : Vec3) : Vec3 :=
  fun i => (∑ j, R i j * k j) + t i

/-- The full rigid transform (rotation @ lig_kpt.t()).t() + translation
applied to every keypoint row. -/
def rigidRows (R : Mat3) (t : Vec3) (rows : List Vec3) : List Vec3 :=
  rows.map (rigidRow R t)

/-- A keypoint tensor as stored per item in the model output: either 1-D
(a single bare keypoint, shape (3,)) or 2-D (shape (n, 3)). -/
inductive KTensor : Type where
  | vec (v : Vec3)
  | mat (rows : List Vec3)

/-- The 2-D view used by run_batch: a 1-D keypoint tensor is promoted with
unsqueeze(0) to a one-row matrix, a 2-D tensor is left as it is. -/
def KTensor.toMat : KTensor → List Vec3
  | .vec v => [v]
  | .mat rows => rows

/-- The geometric-loss element of the model output tuple: a Python int or
float, a scalar torch.Tensor, or any other value (for example None). -/
inductive GeomLoss : Type where
  | num (x : ℝ)
  | tensor (x : ℝ)
  | other

/-- Geometric-loss scalar used on the whole-batch path of run_batch:
float(geom_losses) if isinstance(geom_losses, (int, float)) else 0.0. -/
def batchGeomVal : GeomLoss → ℝ
  | .num x => x
  | .tensor _ => 0
  | .other => 0

/-- Geometric-loss scalar used on the per-item fallback path of run_batch:
float(geom_loss) if isinstance(geom_loss, (int, float, torch.Tensor))
else 0.0.  Unlike the batch path, a scalar tensor contributes its value. -/
def itemGeomVal : GeomLoss → ℝ
  | .num x => x
  | .tensor x => x
  | .other => 0

/-- The keypoint alignment loss of run_batch for one item:
torch.mean(torch.norm((rotation @ lig_kpt.t()).t() + translation - rec_kpt,
dim=1)) after both keypoint tensors have been promoted to 2-D. -/
def alignError (lk rk : KTensor) (R : Mat3) (t : Vec3) : ℝ :=
  meanRowDist (rigidRows R t lk.toMat) rk.toMat

/-- Molecular topology: per-atom data, bonds, and the rotatable bonds the
data model attaches to a molecule (pairs of atom indices). -/
structure Topology : Type where
  atoms : List ℕ
  bonds : List (ℕ × ℕ)
  rotatableBonds : List (ℕ × ℕ)

/-- An RDKit molecule as the pipeline uses it: a fixed topology, an
optional string-valued name property, and one conformer holding a 3-D
position for every atom. -/
structure Molecule : Type where
  topology : Topology
  name : Option String
  conf : List Vec3

/-- Name resolution of run_batch: the _Name property when it is present and
nonblank, otherwise the decimal true index.  The Python test is the
truthiness of name.strip(), which holds exactly when some character of the
name is not whitespace; the test is expressed on the character list. -/
def ligName (lig : Molecule) (trueIndex : ℕ) : String :=
  match lig.name with
  | some s =>
    if s.data.any (fun c => !c.isWhitespace) then s else toString trueIndex
  | none => toString trueIndex

/-- Python exceptions distinguished by run_batch: AssertionError (caught by
the whole-batch handler) versus every other exception class. -/
inductive Exc : Type where
  | assertionError
  | otherError
deriving DecidableEq

/-- A model output tuple with at least six elements: predictions, ligand
keypoints, receptor keypoints, rotations, translations, geometric losses.
Each keypoint or transform component may itself be None. -/
structure FullOut (Pred : Type) : Type where
  predictions : List Pred
  ligKpts : Option (List KTensor)
  recKpts : Option (List KTensor)
  rotations : Option (List Mat3)
  translations : Option (List Vec3)
  geomLosses : GeomLoss

/-- The three model output shapes run_batch accepts: a tuple with at least
six elements, a shorter tuple (whose first element is the prediction list),
or a bare non-tuple prediction list. -/
inductive ModelOutput (Pred : Type) : Type where
  | full (o : FullOut Pred)
  | shortTuple (ps : List Pred)
  | bare (ps : List Pred)

/-- The prediction list run_batch extracts on the whole-batch path. -/
def ModelOutput.preds {Pred : Type} : ModelOutput Pred → List Pred
  | .full o => o.predictions
  | .shortTuple ps => ps
  | .bare ps => ps

/-- Confidence of item i on the whole-batch path, with all four component
lists present: any index error while fetching the components of item i is
caught and yields 0.0, otherwise the score is
-float(keypoint_alignment_loss) - geom_loss_val. -/
def batchConfidence (lks rks : List KTensor) (Rs : List Mat3) (ts : List Vec3)
    (g : GeomLoss) (i : ℕ) : ℝ :=
  match lks[i]?, rks[i]?, Rs[i]?, ts[i]? with
  | some lk, some rk, some R, some t => -(alignError lk rk R t) - batchGeomVal g
  | _, _, _, _ => 0

/-- Confidence scores of the whole-batch path: one score per prediction
when all four component lists are not None, and the dummy list
[0.0] * len(predictions) otherwise. -/
def batchConfidences {Pred : Type} : ModelOutput Pred → List ℝ
  | .full o =>
    match o.ligKpts, o.recKpts, o.rotations, o.translations with
    | some lks, some rks, some Rs, some ts =>
        (List.range o.predictions.length).map fun i =>
          batchConfidence lks rks Rs ts o.geomLosses i
    | _, _, _, _ => List.replicate o.predictions.length 0
  | .shortTuple ps => List.replicate ps.length 0
  | .bare ps => List.replicate ps.length 0

/-- Confidence of one item on the per-item fallback path: the first entry
of each of the four components is used; any exception while fetching them
(absent component or empty component list) is caught and yields 0.0, and a
scalar tensor geometric loss contributes its value. -/
def itemConfidence {Pred : Type} (o : FullOut Pred) : ℝ :=
  match o.ligKpts.bind (·[0]?), o.recKpts.bind (·[0]?),
      o.rotations.bind (·[0]?), o.translations.bind (·[0]?) with
  | some lk, some rk, some R, some t => -(alignError lk rk R t) - itemGeomVal o.geomLosses
  | _, _, _, _ => 0

/-- Pointwise zip of three lists, mirroring Python zip with three
arguments (truncating at the shortest list). -/
def zip3 {α β γ : Type} : List α → List β → List γ → List (α × β × γ)
  | a :: as, b :: bs, c :: cs => (a, b, c) :: zip3 as bs cs
  | _, _, _ => []

/-- Pointwise zip of four lists, mirroring Python zip with four arguments
(truncating at the shortest list). -/
def zip4 {α β γ δ : Type} : List α → List β → List γ → List δ → List (α × β × γ × δ)
  | a :: as, b :: bs, c :: cs, d :: ds => (a, b, c, d) :: zip4 as bs cs ds
  | _, _, _, _ => []

/-- Everything the fallback loop appends for one successfully processed
item: the ligand, its input coordinates, the extracted prediction, the
confidence score, and the success record (true_index, name, confidence). -/
structure ItemSuccess (Coord Pred : Type) : Type where
  lig : Molecule
  coord : Coord
  pred : Pred
  conf : ℝ
  record : ℕ × String × ℝ

/-- One iteration of the per-item fallback loop of run_batch: a failed
model call or a failed prediction extraction produces a failure record
(true_index, name); otherwise the item is appended as a success with its
individually computed confidence. -/
def processItem {Coord Pred : Type} (lig : Molecule) (coord : Coord)
    (out : Except Exc (ModelOutput Pred)) (trueIndex : ℕ) :
    Except (ℕ × String) (ItemSuccess Coord Pred) :=
  match out with
  | .error _ => .error (trueIndex, ligName lig trueIndex)
  | .ok (.full o) =>
    match o.predictions[0]? with
    | none => .error (trueIndex, ligName lig trueIndex)
    | some p =>
      .ok ⟨lig, coord, p, itemConfidence o,
        (trueIndex, ligName lig trueIndex, itemConfidence o)⟩
  | .ok (.shortTuple ps) =>
    match ps[0]? with
    | none => .error (trueIndex, ligName lig trueIndex)
    | some p => .ok ⟨lig, coord, p, 0, (trueIndex, ligName lig trueIndex, 0)⟩
  | .ok (.bare ps) =>
    match ps[0]? with
    | none => .error (trueIndex, ligName lig trueIndex)
    | some p => .ok ⟨lig, coord, p, 0, (trueIndex, ligName lig trueIndex, 0)⟩

/-- The error payload of an Except value, when there is one. -/
def errToOption {ε α : Type} : Except ε α → Option ε
  | .error e => some e
  | .ok _ => none

/-- Case eliminator for Except values, used to state bookkeeping lemmas
about the fallback loop. -/
def okErrElim {α β γ : Type} (fa : α → γ) (fb : β → γ) : Except β α → γ
  | .ok a => fa a
  | .error b => fb b

/-- The value returned by run_batch: out_ligs, out_lig_coords, predictions,
successes, failures, confidence_scores. -/
structure RunBatchResult (Coord Pred : Type) : Type where
  outLigs : List Molecule
  outLigCoords : List Coord
  predictions : List Pred
  successes : List (ℕ × String × ℝ)
  failures : List (ℕ × String)
  confidenceScores : List ℝ

/-- The per-item fallback path of run_batch after dgl.unbatch: the ligands,
coordinates, per-item model outputs, and true indices are traversed in zip
order and each item contributes either to every success list or to the
failure list. -/
def run_fallback {Coord Pred : Type} (ligs : List Molecule) (ligCoords : List Coord)
    (itemOuts : List (Except Exc (ModelOutput Pred))) (trueIndices : List ℕ) :
    RunBatchResult Coord Pred :=
  let results := (zip4 ligs ligCoords itemOuts trueIndices).map fun q =>
    processItem q.1 q.2.1 q.2.2.1 q.2.2.2
  { outLigs := results.filterMap fun r => r.toOption.map (·.lig)
    outLigCoords := results.filterMap fun r => r.toOption.map (·.coord)
    predictions := results.filterMap fun r => r.toOption.map (·.pred)
    successes := results.filterMap fun r => r.toOption.map (·.record)
    failures := results.filterMap fun r => errToOption r
    confidenceScores := results.filterMap fun r => r.toOption.map (·.conf) }

/-- The batch runner run_batch of src/multiligand_inference.py, with the
model abstracted by its observable outputs: the result of the batched model
call and the results of the per-item calls on the unbatched graphs (in
input order).  A batched AssertionError triggers the per-item fallback; any
other exception of the batched call propagates, as does the failure of the
final length assertion. -/
def run_batch {Coord Pred : Type} (batchOut : Except Exc (ModelOutput Pred))
    (itemOuts : List (Except Exc (ModelOutput Pred)))
    (ligs : List Molecule) (ligCoords : List Coord) (trueIndices : List ℕ) :
    Except Exc (RunBatchResult Coord Pred) :=
  let attempt : Except Exc (RunBatchResult Coord Pred) :=
    match batchOut with
    | .ok mo =>
      let confs := batchConfidences mo
      let names := List.zipWith ligName ligs trueIndices
      .ok { outLigs := ligs
            outLigCoords := ligCoords
            predictions := mo.preds
            successes := zip3 trueIndices names confs
            failures := []
            confidenceScores := confs }
    | .error .assertionError => .ok (run_fallback ligs ligCoords itemOuts trueIndices)
    | .error e => .error e
  match attempt with
  | .ok res =>
    if res.predictions.length = res.outLigs.length ∧
        res.outLigs.length = res.confidenceScores.length
    then .ok res else .error .assertionError
  | .error e => .error e

/-- An outcome record of the batch runner: one original index tagged as
succeeded (with name and confidence) or failed (with name). -/
inductive Outcome : Type where
  | succeeded (idx : ℕ) (name : String) (conf : ℝ)
  | failed (idx : ℕ) (name : String)
deriving DecidableEq

/-- The original index an outcome is tagged with. -/
def Outcome.idx : Outcome → ℕ
  | .succeeded i _ _ => i
  | .failed i _ => i

/-- The outcome records of a run_batch result: one succeeded record per
success entry and one failed record per failure entry. -/
def outcomesOf {Coord Pred : Type} (r : RunBatchResult Coord Pred) : List Outcome :=
  (r.successes.map fun s => Outcome.succeeded s.1 s.2.1 s.2.2) ++
    (r.failures.map fun f => Outcome.failed f.1 f.2)

/-- The outcome the per-item fallback loop records for one zipped item
(ligand, coordinates, individual model result, true index). -/
def fallbackOutcome {Coord Pred : Type}
    (q : Molecule × Coord × Except Exc (ModelOutput Pred) × ℕ) : Outcome :=
  match processItem q.1 q.2.1 q.2.2.1 q.2.2.2 with
  | .ok s => Outcome.succeeded s.record.1 s.record.2.1 s.record.2.2
  | .error f => Outcome.failed f.1 f.2

/-- Geometric-loss contribution as the spec words it: the scalar itself
when it is a plain numeric value, and 0 otherwise. -/
def specGeomContribution : GeomLoss → ℝ
  | .num x => x
  | .tensor _ => 0
  | .other => 0

/-- Confidence formula as the spec states it: the negation of the sum of
the mean Euclidean keypoint alignment error (with a single keypoint first
promoted to a one-row matrix) and the geometric loss, the latter
contributing 0 when it is not a plain numeric value. -/
def specConfidence (lk rk : KTensor) (R : Mat3) (t : Vec3) (g : GeomLoss) : ℝ :=
  -(alignError lk rk R t + specGeomContribution g)

/-- Conformer update of run_corrections: deepcopy followed by
conf.SetAtomPosition(i, ...) for every i in range(GetNumAtoms()), taking
position i from the supplied coordinate list.  The claims only use
coordinate lists whose length equals the atom count. -/
def setConf (m : Molecule) (coords : List Vec3) : Molecule :=
  { m with conf := (List.range m.topology.atoms.length).map fun i => coords.getD i (fun _ => 0) }

/-- Modelled from the spec: commons.geometry_utils.get_torsions is not
under src/.  The data model attaches the set of rotatable bonds to the
molecule, and get_torsions enumerates the rotatable bonds of the input
topology. -/
def get_torsions (m : Molecule) : List (ℕ × ℕ) :=
  m.topology.rotatableBonds

/-- Modelled from the spec: commons.geometry_utils (get_dihedral_vonMises,
apply_changes, rigid_transform_Kabsch_3D) is not under src/.  The oracle
packages those collaborators: the per-bond dihedral fit against a target
point cloud, the coordinate set produced by applying all fitted dihedral
changes (which, per the spec, reuses the original topology and hence keeps
the conformer size), and the Kabsch rigid fit, whose SVD may fail to
converge (np.linalg.LinAlgError, the error case). -/
structure GeomOracle : Type where
  get_dihedral_vonMises : Molecule → (ℕ × ℕ) → List Vec3 → ℝ
  applyDihedrals : Molecule → List ℝ → List (ℕ × ℕ) → List Vec3
  applyDihedrals_length : ∀ m ds bs, (applyDihedrals m ds bs).length = m.conf.length
  rigid_transform_Kabsch_3D : List Vec3 → List Vec3 → Except Unit (Mat3 × Vec3)

/-- Modelled from the spec: commons.geometry_utils.apply_changes is not
under src/.  It applies the fitted dihedral angles to the molecule,
producing a new conformer over the unchanged original topology. -/
def apply_changes (O : GeomOracle) (m : Molecule) (ds : List ℝ) (bs : List (ℕ × ℕ)) :
    Molecule :=
  { m with conf := O.applyDihedrals m ds bs }

/-- The optimized molecule built by run_corrections before the rigid
alignment step: the input conformer is rebuilt from the input coordinates,
the predicted point cloud is read off a second rebuilt conformer, each
rotatable bond's dihedral is fitted against that point cloud, and all
fitted changes are applied. -/
def optimizedMol (O : GeomOracle) (lig : Molecule) (ligCoord : List Vec3)
    (pred : List Vec3) : Molecule :=
  let lig_input := setConf lig ligCoord
  let coords_pred := (setConf lig pred).conf
  let rotable_bonds := get_torsions lig_input
  let new_dihedrals := rotable_bonds.map fun r =>
    O.get_dihedral_vonMises lig_input r coords_pred
  apply_changes O lig_input new_dihedrals rotable_bonds

/-- The pose corrector run_corrections of src/multiligand_inference.py:
torsion optimization followed by a Kabsch rigid alignment of the optimized
conformer onto the raw predicted coordinates; if the alignment's SVD fails
to converge the rigid step is skipped and the optimized molecule is
returned unchanged. -/
def run_corrections (O : GeomOracle) (lig : Molecule) (ligCoord : List Vec3)
    (pred : List Vec3) : Molecule :=
  let coords_pred := (setConf lig pred).conf
  let optimized_mol := optimizedMol O lig ligCoord pred
  match O.rigid_transform_Kabsch_3D optimized_mol.conf coords_pred with
  | .ok (R, t) => setConf optimized_mol (optimized_mol.conf.map (rigidRow R t))
  | .error _ => optimized_mol

/-- A degenerate geometry oracle whose Kabsch rigid fit always fails to
converge; used to exercise the SVD-failure path of run_corrections. -/
def failingKabschOracle : GeomOracle where
  get_dihedral_vonMises := fun _ _ _ => 0
  applyDihedrals := fun m _ _ => m.conf
  applyDihedrals_length := fun _ _ _ => rfl
  rigid_transform_Kabsch_3D := fun _ _ => .error ()

/-- A concrete full model output whose geometric loss is a scalar tensor
of value 1, with a single perfectly aligned keypoint pair and the zero
rotation and translation. -/
def cexFull : FullOut Unit :=
  ⟨[()], some [KTensor.mat [fun _ => 0]], some [KTensor.mat [fun _ => 0]],
    some [fun _ _ => 0], some [fun _ => 0], GeomLoss.tensor 1⟩

/-- A concrete ligand named "L" with an empty topology. -/
def cexLig : Molecule := ⟨⟨[], [], []⟩, some "L", []⟩

/-- One batch as delivered by the data loader to write_while_inferring:
the payload (ligs, lig_coords, true_indices) which may be None as a whole,
the failures already recorded by the loader, and the model's observable
outputs for this batch (batched call and per-item calls). -/
structure Batch (Coord Pred : Type) : Type where
  payload : Option (List Molecule × List Coord × List ℕ)
  failedInBatch : List (ℕ × String)
  batchOut : Except Exc (ModelOutput Pred)
  itemOuts : List (Except Exc (ModelOutput Pred))

/-- One row of the confidence_scores.csv data collected by
write_while_inferring. -/
structure CsvRow : Type where
  filename : String
  confidence : Option ℝ
  status : String
deriving DecidableEq

/-- Filename normalization of write_while_inferring: append .sdf unless
the name already ends in .sdf case-insensitively.  The suffix test of
name.lower().endswith is expressed on the character list. -/
def filenameOf (name : String) : String :=
  if ".sdf".data.isSuffixOf (name.data.map Char.toLower) then name
  else name ++ ".sdf"

/-- The observable output of write_while_inferring: molecules written to
output.sdf, lines of success.txt and failed.txt, and the rows of
confidence_scores.csv. -/
structure WriteResult (Coord Pred : Type) : Type where
  written : List Molecule
  successLines : List (ℕ × String)
  failedLines : List (ℕ × String)
  csv : List CsvRow

/-- Concatenation of the outputs of two consecutive batches. -/
def WriteResult.append {Coord Pred : Type} (a b : WriteResult Coord Pred) :
    WriteResult Coord Pred :=
  { written := a.written ++ b.written
    successLines := a.successLines ++ b.successLines
    failedLines := a.failedLines ++ b.failedLines
    csv := a.csv ++ b.csv }

/-- Correction step of write_while_inferring for one surviving item: with
corrections enabled, run the corrector and fall back to the original
uncorrected ligand on any exception (np.linalg.LinAlgError or any other);
with corrections disabled the original ligand is used directly. -/
def correctItem {Coord Pred : Type} (runCorrectionsFlag : Bool)
    (corrector : Molecule → Coord → Pred → Except Exc Molecule)
    (q : Molecule × Coord × Pred) : Molecule :=
  if runCorrectionsFlag then
    match corrector q.1 q.2.1 q.2.2 with
    | .ok m => m
    | .error _ => q.1
  else q.1

/-- Processing of one batch inside write_while_inferring: loader failures
other than "Skipped" are logged, a None payload is skipped, run_batch is
invoked, each surviving item is corrected (any exception during
run_corrections falls back to the original uncorrected ligand), successes
are written with a success CSV row, and failures are logged with a failed
CSV row.  The corrector collaborator is passed explicitly since
run_corrections may raise from external numerical code. -/
def processBatch {Coord Pred : Type} (runCorrectionsFlag : Bool)
    (corrector : Molecule → Coord → Pred → Except Exc Molecule)
    (b : Batch Coord Pred) : Except Exc (WriteResult Coord Pred) :=
  let failedLines0 := b.failedInBatch.filter fun f => f.2 ≠ "Skipped"
  match b.payload with
  | none => .ok ⟨[], [], failedLines0, []⟩
  | some (ligs, ligCoords, trueIndices) =>
    match run_batch b.batchOut b.itemOuts ligs ligCoords trueIndices with
    | .error e => .error e
    | .ok r =>
      let optMols := (zip3 r.outLigs r.outLigCoords r.predictions).map
        (correctItem runCorrectionsFlag corrector)
      let succTriples := zip3 optMols r.successes r.confidenceScores
      .ok { written := succTriples.map (·.1)
            successLines := succTriples.map fun q => (q.2.1.1, q.2.1.2.1)
            failedLines := failedLines0 ++ r.failures
            csv := (succTriples.map fun q =>
                ⟨filenameOf q.2.1.2.1, some q.2.2, "success"⟩)
              ++ r.failures.map fun f => ⟨filenameOf f.2, none, "failed"⟩ }

/-- The writer write_while_inferring of src/multiligand_inference.py over a
whole run: batches are processed strictly in order and their outputs
concatenated; an uncaught exception aborts the run. -/
def write_while_inferring {Coord Pred : Type} (runCorrectionsFlag : Bool)
    (corrector : Molecule → Coord → Pred → Except Exc Molecule) :
    List (Batch Coord Pred) → Except Exc (WriteResult Coord Pred)
  | [] => .ok ⟨[], [], [], []⟩
  | b :: bs =>
    match processBatch runCorrectionsFlag corrector b with
    | .error e => .error e
    | .ok o =>
      match write_while_inferring runCorrectionsFlag corrector bs with
      | .error e => .error e
      | .ok rest => .ok (o.append rest)

end

/-- Index extraction of main for one previous-work line:
int(line.split(" ")[0]).  The logs are written as "index name" lines, so
the first space-separated token parses as a decimal index. -/
def parseIdx (line : String) : ℕ :=
  (((line.splitOn " ").headD "").toNat?).getD 0

/-- The skip-set construction of main: previous_work is built from the
success and failed logs only when both files exist and skipping is enabled
on the command line, and is None otherwise. -/
def buildPreviousWork (successExists failedExists skipInOutput : Bool)
    (successLines failedLines : List String) : Option (List ℕ) :=
  if successExists && failedExists && skipInOutput then
    some (((successLines ++ failedLines).map parseIdx).dedup)
  else none

/-- Modelled from the spec: datasets.multiple_ligands.Ligands is not under
src/.  Given the optional set of previously completed indices it skips
exactly those; with skips = None every index is processed again. -/
def indicesToProcess (total : ℕ) (previousWork : Option (List ℕ)) : List ℕ :=
  match previousWork with
  | none => List.range total
  | some skips => (List.range total).filter fun i => i ∉ skips

section Helpers

variable {Coord Pred : Type}

theorem toOption_ok {ε α : Type} (a : α) :
    (Except.ok a : Except ε α).toOption = some a := rfl

theorem toOption_error {ε α : Type} (e : ε) :
    (Except.error e : Except ε α).toOption = none := rfl

theorem errToOption_ok {ε α : Type} (a : α) :
    errToOption (Except.ok a : Except ε α) = none := rfl

theorem errToOption_error {ε α : Type} (e : ε) :
    errToOption (Except.error e : Except ε α) = some e := rfl

theorem okErr_perm {α β γ : Type} (rs : List (Except β α)) (fa : α → γ) (fb : β → γ) :
    ((rs.filterMap fun r => r.toOption.map fa) ++
      (rs.filterMap fun r => (errToOption r).map fb)).Perm
      (rs.map (okErrElim fa fb)) := by
  induction rs with
  | nil => rfl
  | cons r rs ih =>
    cases r with
    | ok a =>
      simpa [List.filterMap_cons, toOption_ok, errToOption_ok, okErrElim]
        using ih.cons (fa a)
    | error b =>
      simp only [List.filterMap_cons, toOption_error, errToOption_error, List.map_cons,
        Option.map_none', Option.map_some', okErrElim]
      exact List.perm_middle.trans (ih.cons (fb b))

theorem zip4_map_fourth {α β γ δ : Type} (as : List α) (bs : List β) (cs : List γ)
    (ds : List δ) (h1 : as.length = ds.length) (h2 : bs.length = ds.length)
    (h3 : cs.length = ds.length) :
    (zip4 as bs cs ds).map (·.2.2.2) = ds := by
  induction ds generalizing as bs cs with
  | nil =>
    simp only [List.length_nil, List.length_eq_zero] at h1 h2 h3
    subst h1; subst h2; subst h3
    rfl
  | cons d ds ih =>
    rcases as with _ | ⟨a, as⟩
    · simp at h1
    rcases bs with _ | ⟨b, bs⟩
    · simp at h2
    rcases cs with _ | ⟨c, cs⟩
    · simp at h3
    simp only [zip4, List.map_cons, List.cons.injEq, true_and]
    exact ih as bs cs (by simpa using h1) (by simpa using h2) (by simpa using h3)

theorem zip3_map_fst {α β γ : Type} (as : List α) (bs : List β) (cs : List γ)
    (h1 : bs.length = as.length) (h2 : cs.length = as.length) :
    (zip3 as bs cs).map (·.1) = as := by
  induction as generalizing bs cs with
  | nil =>
    simp only [List.length_nil, List.length_eq_zero] at h1 h2
    subst h1; subst h2
    rfl
  | cons a as ih =>
    rcases bs with _ | ⟨b, bs⟩
    · simp at h1
    rcases cs with _ | ⟨c, cs⟩
    · simp at h2
    simp only [zip3, List.map_cons, List.cons.injEq, true_and]
    exact ih bs cs (by simpa using h1) (by simpa using h2)

theorem zip3_getElem? {α β γ : Type} (as : List α) (bs : List β) (cs : List γ) (i : ℕ) :
    (zip3 as bs cs)[i]? =
      as[i]?.bind fun a => bs[i]?.bind fun b => cs[i]?.map fun c => (a, b, c) := by
  induction as generalizing bs cs i with
  | nil =>
    rcases bs with _ | ⟨b, bs⟩ <;> rcases cs with _ | ⟨c, cs⟩ <;> simp [zip3]
  | cons a as ih =>
    rcases bs with _ | ⟨b, bs⟩
    · simp [zip3]
    rcases cs with _ | ⟨c, cs⟩
    · simp [zip3]
    rcases i with _ | i
    · simp [zip3]
    · simpa [zip3] using ih bs cs i

theorem zip4_getElem? {α β γ δ : Type} (as : List α) (bs : List β) (cs : List γ)
    (ds : List δ) (i : ℕ) :
    (zip4 as bs cs ds)[i]? =
      as[i]?.bind fun a => bs[i]?.bind fun b => cs[i]?.bind fun c =>
        ds[i]?.map fun d => (a, b, c, d) := by
  induction as generalizing bs cs ds i with
  | nil =>
    rcases bs with _ | ⟨b, bs⟩ <;> rcases cs with _ | ⟨c, cs⟩ <;>
      rcases ds with _ | ⟨d, ds⟩ <;> simp [zip4]
  | cons a as ih =>
    rcases bs with _ | ⟨b, bs⟩
    · simp [zip4]
    rcases cs with _ | ⟨c, cs⟩
    · simp [zip4]
    rcases ds with _ | ⟨d, ds⟩
    · simp [zip4]
    rcases i with _ | i
    · simp [zip4]
    · simpa [zip4] using ih bs cs ds i

theorem batchConfidences_length (mo : ModelOutput Pred) :
    (batchConfidences mo).length = mo.preds.length := by
  cases mo with
  | full o =>
    obtain ⟨ps, lk, rk, rot, tr, g⟩ := o
    rcases lk with _ | lks <;> rcases rk with _ | rks <;> rcases rot with _ | Rs <;>
      rcases tr with _ | ts <;> simp [batchConfidences, ModelOutput.preds]
  | shortTuple ps => simp [batchConfidences, ModelOutput.preds]
  | bare ps => simp [batchConfidences, ModelOutput.preds]

theorem filterMap_toOption_length {α β γ ε : Type} (l : List (Except ε α))
    (f : α → β) (g : α → γ) :
    (l.filterMap fun r => r.toOption.map f).length =
      (l.filterMap fun r => r.toOption.map g).length := by
  induction l with
  | nil => rfl
  | cons x xs ih =>
    cases x <;> simp [List.filterMap_cons, toOption_ok, toOption_error, ih]

theorem run_fallback_assert (ligs : List Molecule) (coords : List Coord)
    (outs : List (Except Exc (ModelOutput Pred))) (idxs : List ℕ) :
    (run_fallback ligs coords outs idxs).predictions.length =
        (run_fallback ligs coords outs idxs).outLigs.length ∧
      (run_fallback ligs coords outs idxs).outLigs.length =
        (run_fallback ligs coords outs idxs).confidenceScores.length :=
  ⟨filterMap_toOption_length _ _ _, filterMap_toOption_length _ _ _⟩

theorem run_batch_fallback_ok (outs : List (Except Exc (ModelOutput Pred)))
    (ligs : List Molecule) (coords : List Coord) (idxs : List ℕ) :
    run_batch (.error .assertionError) outs ligs coords idxs =
      .ok (run_fallback ligs coords outs idxs) := by
  simp only [run_batch]
  rw [if_pos (run_fallback_assert ligs coords outs idxs)]

theorem fallbackOutcome_idx (q : Molecule × Coord × Except Exc (ModelOutput Pred) × ℕ) :
    (fallbackOutcome q).idx = q.2.2.2 := by
  obtain ⟨l, c, o, t⟩ := q
  rcases o with e | mo
  · rfl
  rcases mo with o | ps | ps
  · rcases h : o.predictions[0]? with _ | p <;>
      simp [fallbackOutcome, processItem, h, Outcome.idx]
  · rcases h : ps[0]? with _ | p <;>
      simp [fallbackOutcome, processItem, h, Outcome.idx]
  · rcases h : ps[0]? with _ | p <;>
      simp [fallbackOutcome, processItem, h, Outcome.idx]

theorem run_fallback_outcomes_perm (ligs : List Molecule) (coords : List Coord)
    (outs : List (Except Exc (ModelOutput Pred))) (idxs : List ℕ) :
    (outcomesOf (run_fallback ligs coords outs idxs)).Perm
      ((zip4 ligs coords outs idxs).map fallbackOutcome) := by
  have h := okErr_perm
    ((zip4 ligs coords outs idxs).map fun q => processItem q.1 q.2.1 q.2.2.1 q.2.2.2)
    (fun s : ItemSuccess Coord Pred =>
      Outcome.succeeded s.record.1 s.record.2.1 s.record.2.2)
    (fun f => Outcome.failed f.1 f.2)
  have hL :
      outcomesOf (run_fallback ligs coords outs idxs) =
        (((zip4 ligs coords outs idxs).map fun q =>
            processItem q.1 q.2.1 q.2.2.1 q.2.2.2).filterMap fun r =>
          r.toOption.map fun s : ItemSuccess Coord Pred =>
            Outcome.succeeded s.record.1 s.record.2.1 s.record.2.2) ++
        (((zip4 ligs coords outs idxs).map fun q =>
            processItem q.1 q.2.1 q.2.2.1 q.2.2.2).filterMap fun r =>
          (errToOption r).map fun f => Outcome.failed f.1 f.2) := by
    simp only [outcomesOf, run_fallback, List.map_filterMap, Option.map_map]
    rfl
  have hR :
      (((zip4 ligs coords outs idxs).map fun q =>
          processItem q.1 q.2.1 q.2.2.1 q.2.2.2).map
        (okErrElim
          (fun s : ItemSuccess Coord Pred =>
            Outcome.succeeded s.record.1 s.record.2.1 s.record.2.2)
          (fun f => Outcome.failed f.1 f.2))) =
        (zip4 ligs coords outs idxs).map fallbackOutcome := by
    rw [List.map_map]
    refine List.map_congr_left fun q _ => ?_
    cases hp : processItem q.1 q.2.1 q.2.2.1 q.2.2.2 <;>
      simp [okErrElim, fallbackOutcome, hp, Function.comp]
  rw [hL, ← hR]
  exact h

theorem run_fallback_index_perm (ligs : List Molecule) (coords : List Coord)
    (outs : List (Except Exc (ModelOutput Pred))) (idxs : List ℕ)
    (h1 : ligs.length = idxs.length) (h2 : coords.length = idxs.length)
    (h3 : outs.length = idxs.length) :
    ((run_fallback ligs coords outs idxs).successes.map (·.1) ++
      (run_fallback ligs coords outs idxs).failures.map (·.1)).Perm idxs := by
  have h := (run_fallback_outcomes_perm ligs coords outs idxs).map Outcome.idx
  have hL : (outcomesOf (run_fallback ligs coords outs idxs)).map Outcome.idx =
      (run_fallback ligs coords outs idxs).successes.map (·.1) ++
        (run_fallback ligs coords outs idxs).failures.map (·.1) := by
    simp only [outcomesOf, List.map_append, List.map_map]
    rfl
  have hR : ((zip4 ligs coords outs idxs).map fallbackOutcome).map Outcome.idx = idxs := by
    rw [List.map_map]
    have hcong : (zip4 ligs coords outs idxs).map (Outcome.idx ∘ fallbackOutcome) =
        (zip4 ligs coords outs idxs).map (·.2.2.2) :=
      List.map_congr_left fun q _ => fallbackOutcome_idx q
    rw [hcong]
    exact zip4_map_fourth _ _ _ _ h1 h2 h3
  rw [hL, hR] at h
  exact h

theorem run_batch_ok_batch_path (mo : ModelOutput Pred)
    (outs : List (Except Exc (ModelOutput Pred))) (ligs : List Molecule)
    (coords : List Coord) (idxs : List ℕ)
    (h : mo.preds.length = ligs.length) :
    run_batch (.ok mo) outs ligs coords idxs =
      .ok { outLigs := ligs, outLigCoords := coords, predictions := mo.preds,
            successes := zip3 idxs (List.zipWith ligName ligs idxs)
              (batchConfidences mo),
            failures := [], confidenceScores := batchConfidences mo } := by
  simp only [run_batch]
  rw [if_pos]
  exact ⟨h, by rw [batchConfidences_length, h]⟩

theorem itemGeomVal_eq_batchGeomVal (g : GeomLoss)
    (hgeom : ∀ x, g ≠ GeomLoss.tensor x) : itemGeomVal g = batchGeomVal g := by
  cases g with
  | num x => rfl
  | tensor x => exact absurd rfl (hgeom x)
  | other => rfl

theorem batchConfidences_singleton (o : FullOut Pred)
    (hpred : o.predictions.length = 1)
    (hgeom : ∀ x, o.geomLosses ≠ GeomLoss.tensor x) :
    batchConfidences (.full o) = [itemConfidence o] := by
  have hr1 : List.range 1 = [0] := rfl
  obtain ⟨ps, lk, rk, rot, tr, g⟩ := o
  simp only at hpred hgeom
  have hg := itemGeomVal_eq_batchGeomVal g hgeom
  rcases lk with _ | lks <;> rcases rk with _ | rks <;>
    rcases rot with _ | Rs <;> rcases tr with _ | ts
  all_goals try (solve
    | simp [batchConfidences, itemConfidence, hpred])
  simp only [batchConfidences, hpred, hr1, List.map_cons, List.map_nil]
  have hitem : itemConfidence
      (⟨ps, some lks, some rks, some Rs, some ts, g⟩ : FullOut Pred) =
      batchConfidence lks rks Rs ts g 0 := by
    simp only [itemConfidence, Option.some_bind, batchConfidence]
    rcases h1 : lks[0]? with _ | a <;>
      rcases h2 : rks[0]? with _ | b <;>
      rcases h3 : Rs[0]? with _ | R <;>
      rcases h4 : ts[0]? with _ | t <;>
      simp [h1, h2, h3, h4, hg]
  rw [hitem]

end Helpers

/-- C1: for every PredictionGroup of N molecules given to run_batch (all
four index-aligned input lists of length N), the successes and failures of
a returned result together contain exactly N entries whose original
indices are a permutation of the group's true_indices — no index is
dropped or duplicated — on both the whole-batch path and the per-item
fallback path. -/
theorem run_batch_indices_complete {Coord Pred : Type}
    (batchOut : Except Exc (ModelOutput Pred))
    (itemOuts : List (Except Exc (ModelOutput Pred)))
    (ligs : List Molecule) (ligCoords : List Coord) (trueIndices : List ℕ)
    (res : RunBatchResult Coord Pred)
    (h1 : ligs.length = trueIndices.length)
    (h2 : ligCoords.length = trueIndices.length)
    (h3 : itemOuts.length = trueIndices.length)
    (hok : run_batch batchOut itemOuts ligs ligCoords trueIndices = .ok res) :
    (res.successes.map (·.1) ++ res.failures.map (·.1)).Perm trueIndices ∧
      res.successes.length + res.failures.length = trueIndices.length := by
  have main : (res.successes.map (·.1) ++ res.failures.map (·.1)).Perm trueIndices := by
    rcases batchOut with e | mo
    · cases e with
      | assertionError =>
        rw [run_batch_fallback_ok] at hok
        injection hok with h
        subst h
        exact run_fallback_index_perm ligs ligCoords itemOuts trueIndices h1 h2 h3
      | otherError => simp [run_batch] at hok
    · simp only [run_batch] at hok
      split at hok
      · rename_i hcond
        injection hok with h
        subst h
        simp only [List.map_nil, List.append_nil]
        have hnames : (List.zipWith ligName ligs trueIndices).length = trueIndices.length := by
          rw [List.length_zipWith, h1, min_self]
        have hconf : (batchConfidences mo).length = trueIndices.length := by
          rw [batchConfidences_length]
          have hp : (ModelOutput.preds mo).length = ligs.length := hcond.1
          rw [hp, h1]
        rw [zip3_map_fst _ _ _ hnames hconf]
      · exact absurd hok (by simp)
  refine ⟨main, ?_⟩
  have hlen := main.length_eq
  simpa using hlen

/-- Witness for C1: a concrete two-ligand group on the whole-batch path,
with true indices 3 and 7 and one blank ligand name falling back to the
index. -/
theorem run_batch_indices_complete_witness :
    (([((3 : ℕ), "a", (0 : ℝ)), (7, "7", 0)].map (·.1) ++
        ([] : List (ℕ × String)).map (·.1)).Perm [3, 7]) ∧
      ([((3 : ℕ), "a", (0 : ℝ)), (7, "7", 0)].length +
        ([] : List (ℕ × String)).length = [3, 7].length) :=
  run_batch_indices_complete
    (.ok (.bare [(), ()])) [.ok (.bare [()]), .ok (.bare [()])]
    [⟨⟨[], [], []⟩, some "a", []⟩, ⟨⟨[], [], []⟩, none, []⟩] [(), ()] [3, 7]
    ⟨[⟨⟨[], [], []⟩, some "a", []⟩, ⟨⟨[], [], []⟩, none, []⟩], [(), ()], [(), ()],
      [(3, "a", 0), (7, "7", 0)], [], [0, 0]⟩
    rfl rfl rfl (by rfl)

/-- C4: on the per-item fallback path, an item whose individual model call
raises any exception is recorded as a failure carrying the item's
identifying name, run_batch itself returns normally (no aggregate failure
is raised), and every item of the group still yields an outcome: the
success and failure counts sum to the group size. -/
theorem run_batch_item_failure_recorded {Coord Pred : Type}
    (itemOuts : List (Except Exc (ModelOutput Pred)))
    (ligs : List Molecule) (ligCoords : List Coord) (trueIndices : List ℕ)
    (k : ℕ) (lig : Molecule) (coord : Coord) (e : Exc) (t : ℕ)
    (h1 : ligs.length = trueIndices.length)
    (h2 : ligCoords.length = trueIndices.length)
    (h3 : itemOuts.length = trueIndices.length)
    (hl : ligs[k]? = some lig) (hc : ligCoords[k]? = some coord)
    (ho : itemOuts[k]? = some (.error e)) (ht : trueIndices[k]? = some t) :
    run_batch (.error .assertionError) itemOuts ligs ligCoords trueIndices =
        .ok (run_fallback ligs ligCoords itemOuts trueIndices) ∧
      (t, ligName lig t) ∈ (run_fallback ligs ligCoords itemOuts trueIndices).failures ∧
      (run_fallback ligs ligCoords itemOuts trueIndices).successes.length +
          (run_fallback ligs ligCoords itemOuts trueIndices).failures.length =
        trueIndices.length := by
  refine ⟨run_batch_fallback_ok itemOuts ligs ligCoords trueIndices, ?_, ?_⟩
  · have hzip : (zip4 ligs ligCoords itemOuts trueIndices)[k]? =
        some (lig, coord, .error e, t) := by
      rw [zip4_getElem?, hl, hc, ho, ht]
      rfl
    have hmem : (lig, coord, (Except.error e : Except Exc (ModelOutput Pred)), t) ∈
        zip4 ligs ligCoords itemOuts trueIndices := List.getElem?_mem hzip
    refine List.mem_filterMap.mpr ?_
    refine ⟨processItem lig coord (.error e) t, List.mem_map_of_mem _ hmem, ?_⟩
    rfl
  · have hperm := run_fallback_index_perm ligs ligCoords itemOuts trueIndices h1 h2 h3
    have hlen := hperm.length_eq
    simpa using hlen

/-- Witness for C4: a concrete two-ligand group where the first item's
individual model call raises a non-assertion exception; the item is
recorded as failed under its index-based name "4" and both items still
produce an outcome. -/
theorem run_batch_item_failure_recorded_witness :
    run_batch (.error .assertionError)
        ([.error .otherError, .ok (.bare [()])] :
          List (Except Exc (ModelOutput Unit)))
        [⟨⟨[], [], []⟩, none, []⟩, ⟨⟨[], [], []⟩, some "b", []⟩] [(), ()] [4, 9] =
        .ok (run_fallback [⟨⟨[], [], []⟩, none, []⟩, ⟨⟨[], [], []⟩, some "b", []⟩]
          [(), ()] [.error .otherError, .ok (.bare [()])] [4, 9]) ∧
      ((4 : ℕ), "4") ∈ (run_fallback [⟨⟨[], [], []⟩, none, []⟩, ⟨⟨[], [], []⟩, some "b", []⟩]
          [(), ()] [.error .otherError, .ok (.bare [()])] [4, 9]).failures ∧
      (run_fallback [⟨⟨[], [], []⟩, none, []⟩, ⟨⟨[], [], []⟩, some "b", []⟩]
            [(), ()] [.error .otherError, .ok (.bare [()])] [4, 9]).successes.length +
          (run_fallback [⟨⟨[], [], []⟩, none, []⟩, ⟨⟨[], [], []⟩, some "b", []⟩]
            [(), ()] [.error .otherError, .ok (.bare [()])] [4, 9]).failures.length =
        [4, 9].length :=
  run_batch_item_failure_recorded
    ([.error .otherError, .ok (.bare [()])] :
      List (Except Exc (ModelOutput Unit)))
    [⟨⟨[], [], []⟩, none, []⟩, ⟨⟨[], [], []⟩, some "b", []⟩] [(), ()] [4, 9]
    0 ⟨⟨[], [], []⟩, none, []⟩ () .otherError 4
    rfl rfl rfl rfl rfl rfl rfl

/-- C5: run_corrections returns a molecule with the same atom count and
the same topology (atoms, bonds and rotatable bonds) as its input — only
the conformer's 3-D coordinates may differ, and the conformer keeps one
position per atom; the embedding is functional on deep copies, so the
caller's molecule value is untouched. -/
theorem run_corrections_preserves_topology (O : GeomOracle) (lig : Molecule)
    (ligCoord pred : List Vec3)
    (hlc : ligCoord.length = lig.topology.atoms.length)
    (hpr : pred.length = lig.topology.atoms.length) :
    (run_corrections O lig ligCoord pred).topology = lig.topology ∧
      (run_corrections O lig ligCoord pred).topology.atoms.length =
        lig.topology.atoms.length ∧
      (run_corrections O lig ligCoord pred).name = lig.name ∧
      (run_corrections O lig ligCoord pred).conf.length =
        lig.topology.atoms.length := by
  rcases hk : O.rigid_transform_Kabsch_3D (optimizedMol O lig ligCoord pred).conf
      (setConf lig pred).conf with e | ⟨R, t⟩
  · refine ⟨?_, ?_, ?_, ?_⟩ <;>
      simp only [run_corrections, hk] <;>
      simp [optimizedMol, apply_changes, setConf, get_torsions,
        GeomOracle.applyDihedrals_length]
  · refine ⟨?_, ?_, ?_, ?_⟩ <;>
      simp only [run_corrections, hk] <;>
      simp [optimizedMol, apply_changes, setConf, get_torsions]

/-- Witness for C5: pose correction of a concrete one-atom molecule with
a one-point conformer, through the always-failing-Kabsch oracle. -/
theorem run_corrections_preserves_topology_witness :
    (run_corrections failingKabschOracle ⟨⟨[6], [], []⟩, some "m", [fun _ => 0]⟩
        [fun _ => 1] [fun _ => 2]).topology = ⟨[6], [], []⟩ ∧
      (run_corrections failingKabschOracle ⟨⟨[6], [], []⟩, some "m", [fun _ => 0]⟩
          [fun _ => 1] [fun _ => 2]).topology.atoms.length = 1 ∧
      (run_corrections failingKabschOracle ⟨⟨[6], [], []⟩, some "m", [fun _ => 0]⟩
          [fun _ => 1] [fun _ => 2]).name = some "m" ∧
      (run_corrections failingKabschOracle ⟨⟨[6], [], []⟩, some "m", [fun _ => 0]⟩
          [fun _ => 1] [fun _ => 2]).conf.length = 1 :=
  run_corrections_preserves_topology failingKabschOracle
    ⟨⟨[6], [], []⟩, some "m", [fun _ => 0]⟩ [fun _ => 1] [fun _ => 2] rfl rfl

/-- C6: when the rigid-alignment SVD fails to converge
(np.linalg.LinAlgError from rigid_transform_Kabsch_3D), run_corrections
raises no exception and returns exactly the optimized-but-unaligned
molecule: the rigid rotation+translation step is skipped entirely. -/
theorem run_corrections_svd_failure_skips_alignment (O : GeomOracle)
    (lig : Molecule) (ligCoord pred : List Vec3)
    (hfail : O.rigid_transform_Kabsch_3D (optimizedMol O lig ligCoord pred).conf
        (setConf lig pred).conf = .error ()) :
    run_corrections O lig ligCoord pred = optimizedMol O lig ligCoord pred := by
  simp [run_corrections, hfail]

/-- Witness for C6: a concrete molecule corrected through an oracle whose
Kabsch fit always fails to converge. -/
theorem run_corrections_svd_failure_skips_alignment_witness :
    run_corrections failingKabschOracle ⟨⟨[5], [], []⟩, none, []⟩ [] [] =
      optimizedMol failingKabschOracle ⟨⟨[5], [], []⟩, none, []⟩ [] [] :=
  run_corrections_svd_failure_skips_alignment failingKabschOracle
    ⟨⟨[5], [], []⟩, none, []⟩ [] [] rfl

/-- C7: a prediction whose ligand-keypoint, receptor-keypoint, rotation or
translation component is unavailable gets confidence exactly 0 — whether
the whole component is None (short or bare model outputs, or a None
component inside a full tuple) or the item's entry is missing from a
present component list (the caught index error) — and the confidence
computation never aborts run_batch: a whole-batch call with matching
prediction count still returns ok. -/
theorem confidence_missing_components_zero {Coord Pred : Type} :
    (∀ ps : List Pred,
      batchConfidences (.shortTuple ps) = List.replicate ps.length 0) ∧
    (∀ ps : List Pred,
      batchConfidences (.bare ps) = List.replicate ps.length 0) ∧
    (∀ o : FullOut Pred,
      (o.ligKpts = none ∨ o.recKpts = none ∨ o.rotations = none ∨
        o.translations = none) →
      batchConfidences (.full o) = List.replicate o.predictions.length 0) ∧
    (∀ (lks rks : List KTensor) (Rs : List Mat3) (ts : List Vec3) (g : GeomLoss)
        (i : ℕ),
      (lks[i]? = none ∨ rks[i]? = none ∨ Rs[i]? = none ∨ ts[i]? = none) →
      batchConfidence lks rks Rs ts g i = 0) ∧
    (∀ o : FullOut Pred,
      (o.ligKpts.bind (·[0]?) = none ∨ o.recKpts.bind (·[0]?) = none ∨
        o.rotations.bind (·[0]?) = none ∨ o.translations.bind (·[0]?) = none) →
      itemConfidence o = 0) ∧
    (∀ (mo : ModelOutput Pred) (ligs : List Molecule) (coords : List Coord)
        (outs : List (Except Exc (ModelOutput Pred))) (idxs : List ℕ),
      mo.preds.length = ligs.length →
      run_batch (.ok mo) outs ligs coords idxs =
        .ok { outLigs := ligs, outLigCoords := coords, predictions := mo.preds,
              successes := zip3 idxs (List.zipWith ligName ligs idxs)
                (batchConfidences mo),
              failures := [], confidenceScores := batchConfidences mo }) := by
  refine ⟨fun ps => rfl, fun ps => rfl, ?_, ?_, ?_, ?_⟩
  · rintro ⟨ps, lk, rk, rot, tr, g⟩ h
    rcases lk with _ | lks <;> rcases rk with _ | rks <;>
      rcases rot with _ | Rs <;> rcases tr with _ | ts <;>
      simp_all [batchConfidences]
  · intro lks rks Rs ts g i h
    rcases h1 : lks[i]? with _ | lk <;>
      rcases h2 : rks[i]? with _ | rk <;>
      rcases h3 : Rs[i]? with _ | R <;>
      rcases h4 : ts[i]? with _ | t <;>
      simp only [batchConfidence, h1, h2, h3, h4] <;>
      rcases h with h | h | h | h <;> simp_all
  · intro o h
    rcases h1 : o.ligKpts.bind (·[0]?) with _ | lk <;>
      rcases h2 : o.recKpts.bind (·[0]?) with _ | rk <;>
      rcases h3 : o.rotations.bind (·[0]?) with _ | R <;>
      rcases h4 : o.translations.bind (·[0]?) with _ | t <;>
      simp only [itemConfidence, h1, h2, h3, h4] <;>
      rcases h with h | h | h | h <;> simp_all
  · intro mo ligs coords outs idxs h
    simp only [run_batch]
    rw [if_pos]
    exact ⟨h, by rw [batchConfidences_length, h]⟩

/-- Witness for C7: concrete model outputs with absent components all
yield confidence 0, and run_batch still returns ok. -/
theorem confidence_missing_components_zero_witness :
    batchConfidences (.shortTuple [()] : ModelOutput Unit) =
        List.replicate 1 0 ∧
      batchConfidence [] [] [] [] .other 0 = 0 ∧
      itemConfidence (⟨[()], none, none, none, none, .other⟩ : FullOut Unit) = 0 :=
  ⟨(@confidence_missing_components_zero Unit Unit).1 [()],
    (@confidence_missing_components_zero Unit Unit).2.2.2.1
      [] [] [] [] .other 0 (Or.inl rfl),
    (@confidence_missing_components_zero Unit Unit).2.2.2.2.1
      ⟨[()], none, none, none, none, .other⟩ (Or.inl rfl)⟩

/-- C8: for a fixed geometric loss, the batch confidence is monotonically
non-increasing in the keypoint alignment error: of two predictions with
all components present, the one whose alignment error is not larger
receives a confidence that is not smaller. -/
theorem confidence_monotone_in_alignment_error
    (lks1 rks1 : List KTensor) (Rs1 : List Mat3) (ts1 : List Vec3)
    (lks2 rks2 : List KTensor) (Rs2 : List Mat3) (ts2 : List Vec3)
    (g : GeomLoss) (i j : ℕ) (lk1 rk1 : KTensor) (R1 : Mat3) (t1 : Vec3)
    (lk2 rk2 : KTensor) (R2 : Mat3) (t2 : Vec3)
    (h1 : lks1[i]? = some lk1) (h2 : rks1[i]? = some rk1)
    (h3 : Rs1[i]? = some R1) (h4 : ts1[i]? = some t1)
    (h5 : lks2[j]? = some lk2) (h6 : rks2[j]? = some rk2)
    (h7 : Rs2[j]? = some R2) (h8 : ts2[j]? = some t2)
    (hle : alignError lk1 rk1 R1 t1 ≤ alignError lk2 rk2 R2 t2) :
    batchConfidence lks2 rks2 Rs2 ts2 g j ≤ batchConfidence lks1 rks1 Rs1 ts1 g i := by
  simp only [batchConfidence, h1, h2, h3, h4, h5, h6, h7, h8]
  linarith

/-- Witness for C8: the degenerate zero keypoint, transform and loss on
both sides, with equal alignment errors. -/
theorem confidence_monotone_in_alignment_error_witness :
    batchConfidence [KTensor.vec fun _ => 0] [KTensor.vec fun _ => 0]
        [fun _ _ => 0] [fun _ => 0] .other 0 ≤
      batchConfidence [KTensor.vec fun _ => 0] [KTensor.vec fun _ => 0]
        [fun _ _ => 0] [fun _ => 0] .other 0 :=
  confidence_monotone_in_alignment_error
    [KTensor.vec fun _ => 0] [KTensor.vec fun _ => 0] [fun _ _ => 0] [fun _ => 0]
    [KTensor.vec fun _ => 0] [KTensor.vec fun _ => 0] [fun _ _ => 0] [fun _ => 0]
    .other 0 0 (KTensor.vec fun _ => 0) (KTensor.vec fun _ => 0)
    (fun _ _ => 0) (fun _ => 0) (KTensor.vec fun _ => 0) (KTensor.vec fun _ => 0)
    (fun _ _ => 0) (fun _ => 0) rfl rfl rfl rfl rfl rfl rfl rfl (le_refl _)

/-- C2 (amended): when the whole-batch call fails with the structural
assertion failure, the group's outcomes are exactly the per-item fallback
outcomes, and the fallback outcome of each item equals the outcome of
running that item alone through run_batch from the start — provided the
singleton batch call returns the item's individual model output, that
output carries exactly one prediction, its geometric loss is not a bare
scalar tensor, and any exception of the individual call is the structural
assertion failure. -/
theorem fallback_outcome_equals_individual_run {Coord Pred : Type}
    (ligs : List Molecule) (coords : List Coord)
    (outs : List (Except Exc (ModelOutput Pred))) (idxs : List ℕ)
    (l : Molecule) (c : Coord) (o : Except Exc (ModelOutput Pred)) (t : ℕ)
    (hmem : (l, c, o, t) ∈ zip4 ligs coords outs idxs)
    (hpred : ∀ mo, o = .ok mo → mo.preds.length = 1)
    (hgeom : ∀ o1 x, o = .ok (.full o1) → o1.geomLosses ≠ GeomLoss.tensor x)
    (herr : ∀ e, o = .error e → e = .assertionError) :
    (∃ r, run_batch (.error .assertionError) outs ligs coords idxs = .ok r ∧
        (outcomesOf r).Perm ((zip4 ligs coords outs idxs).map fallbackOutcome)) ∧
    ∃ r1, run_batch o [o] [l] [c] [t] = .ok r1 ∧
      outcomesOf r1 = [fallbackOutcome (l, c, o, t)] := by
  refine ⟨⟨run_fallback ligs coords outs idxs,
    run_batch_fallback_ok outs ligs coords idxs,
    run_fallback_outcomes_perm ligs coords outs idxs⟩, ?_⟩
  rcases o with e | mo
  · have he := herr e rfl
    subst he
    exact ⟨run_fallback [l] [c] [.error .assertionError] [t],
      run_batch_fallback_ok _ _ _ _, rfl⟩
  rcases mo with o | ps | ps
  · have h1 : o.predictions.length = 1 := hpred _ rfl
    have hg : ∀ x, o.geomLosses ≠ GeomLoss.tensor x := fun x => hgeom o x rfl
    have hbc := batchConfidences_singleton o h1 hg
    obtain ⟨p, hp⟩ := List.length_eq_one.mp h1
    refine ⟨_, run_batch_ok_batch_path (.full o) [.ok (.full o)] [l] [c] [t]
      (by simpa [ModelOutput.preds] using h1), ?_⟩
    simp only [outcomesOf, fallbackOutcome, processItem, hbc, hp, List.getElem?_cons_zero,
      zip3, List.zipWith, List.map_cons, List.map_nil, List.append_nil]
  · have h1 : ps.length = 1 := hpred _ rfl
    obtain ⟨p, hp⟩ := List.length_eq_one.mp h1
    refine ⟨_, run_batch_ok_batch_path (.shortTuple ps) [.ok (.shortTuple ps)]
      [l] [c] [t] (by simpa [ModelOutput.preds] using h1), ?_⟩
    simp only [outcomesOf, fallbackOutcome, processItem, hp, List.getElem?_cons_zero,
      batchConfidences, h1, List.replicate_one, zip3, List.zipWith, List.map_cons,
      List.map_nil, List.append_nil]
  · have h1 : ps.length = 1 := hpred _ rfl
    obtain ⟨p, hp⟩ := List.length_eq_one.mp h1
    refine ⟨_, run_batch_ok_batch_path (.bare ps) [.ok (.bare ps)]
      [l] [c] [t] (by simpa [ModelOutput.preds] using h1), ?_⟩
    simp only [outcomesOf, fallbackOutcome, processItem, hp, List.getElem?_cons_zero,
      batchConfidences, h1, List.replicate_one, zip3, List.zipWith, List.map_cons,
      List.map_nil, List.append_nil]

/-- Counterexample for C2: for a concrete item whose model output carries
a scalar-tensor geometric loss, the fallback path records confidence -1
while running the same item individually from the start records
confidence 0, so the two outcomes differ. -/
theorem fallback_differs_from_individual_run_cex :
    (run_batch (.error .assertionError)
          [.ok (.full cexFull)] [cexLig] [()] [5]).map (·.successes) =
        .ok [(5, "L", -1)] ∧
      (run_batch (.ok (.full cexFull))
          [.ok (.full cexFull)] [cexLig] [()] [5]).map (·.successes) =
        .ok [(5, "L", 0)] ∧
      ((5, "L", (-1 : ℝ)) : ℕ × String × ℝ) ≠ (5, "L", 0) := by
  have hA : alignError (KTensor.mat [fun _ => 0]) (KTensor.mat [fun _ => 0])
      (fun _ _ => 0) (fun _ => 0) = 0 := by
    simp [alignError, meanRowDist, rigidRows, rigidRow, KTensor.toMat, rowDist]
  have hic : itemConfidence cexFull = -1 := by
    simp [itemConfidence, cexFull, hA, itemGeomVal]
  have hsucc : (run_fallback [cexLig] [()] [.ok (.full cexFull)] [5]).successes =
      [(5, "L", itemConfidence cexFull)] := rfl
  have hbc2 : batchConfidences (.full cexFull) = [0] := by
    simp [batchConfidences, batchConfidence, cexFull, hA, batchGeomVal,
      List.range_succ]
  refine ⟨?_, ?_, by norm_num [Prod.ext_iff]⟩
  · rw [run_batch_fallback_ok]
    simp only [Except.map, hsucc, hic]
  · rw [run_batch_ok_batch_path (.full cexFull) [.ok (.full cexFull)]
      [cexLig] [()] [5] rfl]
    simp only [Except.map, hbc2]
    rfl

/-- Witness for C2 (amended): a concrete singleton group with a bare model
output, where the fallback outcome and the individual run agree. -/
theorem fallback_outcome_equals_individual_run_witness :
    ((∃ r, run_batch (.error .assertionError)
          ([.ok (.bare [()])] : List (Except Exc (ModelOutput Unit)))
          [cexLig] [()] [9] = .ok r ∧
        (outcomesOf r).Perm
          ((zip4 [cexLig] [()]
            ([.ok (.bare [()])] : List (Except Exc (ModelOutput Unit)))
            [9]).map fallbackOutcome)) ∧
      ∃ r1, run_batch (.ok (.bare [()]))
          ([.ok (.bare [()])] : List (Except Exc (ModelOutput Unit)))
          [cexLig] [()] [9] = .ok r1 ∧
        outcomesOf r1 = [fallbackOutcome (cexLig, (), .ok (.bare [()]), 9)]) :=
  fallback_outcome_equals_individual_run [cexLig] [()]
    ([.ok (.bare [()])] : List (Except Exc (ModelOutput Unit))) [9]
    cexLig () (.ok (.bare [()])) 9 (List.mem_singleton.mpr rfl)
    (fun mo h => by cases h; rfl)
    (fun o1 x h => by cases h)
    (fun e h => by cases h)

/-- Counterexample for C3: on the per-item fallback path (lines 251-266) a
scalar-tensor geometric loss contributes its numeric value rather than 0:
for a concrete prediction with zero alignment error and tensor loss 1 the
computed confidence is -1, while the claimed formula — geometric loss
contributing 0 when it is not a plain numeric value — gives 0. -/
theorem confidence_formula_cex :
    itemConfidence cexFull = -1 ∧
      specConfidence (KTensor.mat [fun _ => 0]) (KTensor.mat [fun _ => 0])
        (fun _ _ => 0) (fun _ => 0) (GeomLoss.tensor 1) = 0 ∧
      itemConfidence cexFull ≠
        specConfidence (KTensor.mat [fun _ => 0]) (KTensor.mat [fun _ => 0])
          (fun _ _ => 0) (fun _ => 0) (GeomLoss.tensor 1) := by
  have hA : alignError (KTensor.mat [fun _ => 0]) (KTensor.mat [fun _ => 0])
      (fun _ _ => 0) (fun _ => 0) = 0 := by
    simp [alignError, meanRowDist, rigidRows, rigidRow, KTensor.toMat, rowDist]
  have h1 : itemConfidence cexFull = -1 := by
    simp [itemConfidence, cexFull, hA, itemGeomVal]
  have h2 : specConfidence (KTensor.mat [fun _ => 0]) (KTensor.mat [fun _ => 0])
      (fun _ _ => 0) (fun _ => 0) (GeomLoss.tensor 1) = 0 := by
    simp [specConfidence, hA, specGeomContribution]
  refine ⟨h1, h2, ?_⟩
  rw [h1, h2]
  norm_num

/-- C3 (amended): with all four components present, the whole-batch
confidence equals the spec formula -(alignmentError + geometricLoss) with
a non-numeric geometric loss contributing 0; the per-item fallback
confidence follows the same formula except that a scalar tensor geometric
loss also contributes its numeric value (only other non-numeric values
contribute 0); and a single bare keypoint is promoted to a one-row matrix,
making the alignment error of a 1-D keypoint equal to that of the
corresponding one-row matrix. -/
theorem confidence_formula {Pred : Type} (lks rks : List KTensor) (Rs : List Mat3)
    (ts : List Vec3) (g : GeomLoss) (i : ℕ) (lk rk : KTensor) (R : Mat3)
    (t : Vec3) (h1 : lks[i]? = some lk) (h2 : rks[i]? = some rk)
    (h3 : Rs[i]? = some R) (h4 : ts[i]? = some t) (o : FullOut Pred)
    (lk0 rk0 : KTensor) (R0 : Mat3) (t0 : Vec3)
    (g1 : o.ligKpts.bind (·[0]?) = some lk0)
    (g2 : o.recKpts.bind (·[0]?) = some rk0)
    (g3 : o.rotations.bind (·[0]?) = some R0)
    (g4 : o.translations.bind (·[0]?) = some t0) :
    batchConfidence lks rks Rs ts g i = specConfidence lk rk R t g ∧
      itemConfidence o = -(alignError lk0 rk0 R0 t0 + itemGeomVal o.geomLosses) ∧
      ∀ (v : Vec3) (rk1 : KTensor) (R1 : Mat3) (t1 : Vec3),
        alignError (KTensor.vec v) rk1 R1 t1 =
          alignError (KTensor.mat [v]) rk1 R1 t1 := by
  have hspec : specGeomContribution g = batchGeomVal g := by
    cases g <;> rfl
  refine ⟨?_, ?_, fun v rk1 R1 t1 => rfl⟩
  · simp only [batchConfidence, h1, h2, h3, h4, specConfidence, hspec]
    ring
  · simp only [itemConfidence, g1, g2, g3, g4]
    ring

/-- Witness for C3 (amended): the concrete single-keypoint prediction of
the counterexample input satisfies the amended formulas on both paths. -/
theorem confidence_formula_witness :
    (batchConfidence [KTensor.mat [fun _ => 0]] [KTensor.mat [fun _ => 0]]
        [fun _ _ => 0] [fun _ => 0] (GeomLoss.tensor 1) 0 =
      specConfidence (KTensor.mat [fun _ => 0]) (KTensor.mat [fun _ => 0])
        (fun _ _ => 0) (fun _ => 0) (GeomLoss.tensor 1)) ∧
      (itemConfidence cexFull =
        -(alignError (KTensor.mat [fun _ => 0]) (KTensor.mat [fun _ => 0])
            (fun _ _ => 0) (fun _ => 0) + itemGeomVal cexFull.geomLosses)) ∧
      alignError (KTensor.vec fun _ => 0) (KTensor.vec fun _ => 0)
          (fun _ _ => 0) (fun _ => 0) =
        alignError (KTensor.mat [fun _ => 0]) (KTensor.vec fun _ => 0)
          (fun _ _ => 0) (fun _ => 0) := by
  have h := confidence_formula [KTensor.mat [fun _ => 0]] [KTensor.mat [fun _ => 0]]
    [fun _ _ => 0] [fun _ => 0] (GeomLoss.tensor 1) 0
    (KTensor.mat [fun _ => 0]) (KTensor.mat [fun _ => 0]) (fun _ _ => 0)
    (fun _ => 0) rfl rfl rfl rfl cexFull
    (KTensor.mat [fun _ => 0]) (KTensor.mat [fun _ => 0]) (fun _ _ => 0)
    (fun _ => 0) rfl rfl rfl rfl
  exact ⟨h.1, h.2.1, h.2.2 (fun _ => 0) (KTensor.vec fun _ => 0)
    (fun _ _ => 0) (fun _ => 0)⟩

/-- C9: in write_while_inferring, a successful item whose pose correction
raises any exception is written to the output as the original uncorrected
ligand molecule and is still recorded as a success in both the success log
and the confidence CSV; the correction failure is never surfaced: the
writer returns normally. -/
theorem write_correction_failure_keeps_success {Coord Pred : Type}
    (corrector : Molecule → Coord → Pred → Except Exc Molecule)
    (b : Batch Coord Pred) (ligs : List Molecule) (coords : List Coord)
    (idxs : List ℕ) (r : RunBatchResult Coord Pred) (k : ℕ) (l : Molecule)
    (c : Coord) (p : Pred) (s : ℕ × String × ℝ) (cf : ℝ) (e : Exc)
    (hpay : b.payload = some (ligs, coords, idxs))
    (hrb : run_batch b.batchOut b.itemOuts ligs coords idxs = .ok r)
    (hl : r.outLigs[k]? = some l) (hc : r.outLigCoords[k]? = some c)
    (hp : r.predictions[k]? = some p) (hs : r.successes[k]? = some s)
    (hcf : r.confidenceScores[k]? = some cf)
    (hcorr : corrector l c p = .error e) :
    (write_while_inferring true corrector [b]).map (fun out => out.written[k]?) =
        .ok (some l) ∧
      (write_while_inferring true corrector [b]).map
          (fun out => out.successLines[k]?) = .ok (some (s.1, s.2.1)) ∧
      (write_while_inferring true corrector [b]).map (fun out => out.csv[k]?) =
        .ok (some ⟨filenameOf s.2.1, some cf, "success"⟩) := by
  have hq : (zip3 r.outLigs r.outLigCoords r.predictions)[k]? = some (l, c, p) := by
    rw [zip3_getElem?, hl, hc, hp]
    rfl
  have hopt : ((zip3 r.outLigs r.outLigCoords r.predictions).map
      (correctItem true corrector))[k]? = some l := by
    rw [List.getElem?_map, hq]
    simp [correctItem, hcorr]
  have htrip : (zip3 ((zip3 r.outLigs r.outLigCoords r.predictions).map
      (correctItem true corrector)) r.successes r.confidenceScores)[k]? =
      some (l, s, cf) := by
    rw [zip3_getElem?, hopt, hs, hcf]
    rfl
  have hklt : k < (zip3 ((zip3 r.outLigs r.outLigCoords r.predictions).map
      (correctItem true corrector)) r.successes r.confidenceScores).length :=
    (List.getElem?_eq_some_iff.mp htrip).1
  refine ⟨?_, ?_, ?_⟩ <;>
    simp only [write_while_inferring, processBatch, hpay, hrb, Except.map,
      WriteResult.append, List.append_nil, List.getElem?_map, htrip,
      Option.map_some']
  rw [List.getElem?_append_left (by simpa using hklt), List.getElem?_map, htrip]
  rfl

/-- Witness for C9: a concrete one-item batch whose corrector always
raises; the original ligand "L" is written, logged as a success, and given
a success CSV row. -/
theorem write_correction_failure_keeps_success_witness :
    (write_while_inferring true (fun _ _ _ => .error .otherError)
          [(⟨some ([cexLig], [()], [0]), [], .ok (.bare [()]), []⟩ :
            Batch Unit Unit)]).map
        (fun out => out.written[0]?) = .ok (some cexLig) ∧
      (write_while_inferring true (fun _ _ _ => .error .otherError)
            [(⟨some ([cexLig], [()], [0]), [], .ok (.bare [()]), []⟩ :
              Batch Unit Unit)]).map
          (fun out => out.successLines[0]?) = .ok (some ((0 : ℕ), "L")) ∧
      (write_while_inferring true (fun _ _ _ => .error .otherError)
            [(⟨some ([cexLig], [()], [0]), [], .ok (.bare [()]), []⟩ :
              Batch Unit Unit)]).map
          (fun out => out.csv[0]?) =
        .ok (some ⟨filenameOf "L", some (0 : ℝ), "success"⟩) :=
  write_correction_failure_keeps_success
    (fun _ _ _ => .error .otherError)
    (⟨some ([cexLig], [()], [0]), [], .ok (.bare [()]), []⟩ : Batch Unit Unit)
    [cexLig] [()] [0]
    ⟨[cexLig], [()], [()], [(0, "L", 0)], [], [0]⟩
    0 cexLig () () (0, "L", 0) 0 .otherError
    rfl (by rfl) rfl rfl rfl rfl rfl rfl

/-- C10: the skip set of a resumable run is built exactly when success.txt
and failed.txt both exist and skipping is enabled; whenever either log
file is absent, previous_work is None and every index is processed
again. -/
theorem skip_set_requires_both_logs (sE fE skip : Bool)
    (sL fL : List String) (total : ℕ) :
    (buildPreviousWork sE fE skip sL fL ≠ none ↔
      sE = true ∧ fE = true ∧ skip = true) ∧
    ((sE = false ∨ fE = false) →
      buildPreviousWork sE fE skip sL fL = none ∧
      indicesToProcess total (buildPreviousWork sE fE skip sL fL) =
        List.range total) := by
  cases sE <;> cases fE <;> cases skip <;>
    simp [buildPreviousWork, indicesToProcess]

/-- Witness for C10: with success.txt absent, no previous work is skipped
and both of a two-ligand run's indices are processed. -/
theorem skip_set_requires_both_logs_witness :
    buildPreviousWork false true true [] [] = none ∧
      indicesToProcess 2 (buildPreviousWork false true true [] []) =
        List.range 2 :=
  (skip_set_requires_both_logs false true true [] [] 2).2 (Or.inl rfl)

end EquiBindXAI
